import Mathlib

/-!
Verification of the todo-list application: a shallow embedding of the three
source files (`src/components/TodoList.tsx`, `src/app/dashboard/page.tsx`,
`src/app/auth/callback/route.ts`).

The remote Record Store and the Session Provider are external collaborators;
each handler is embedded as a pure function taking, besides the component
state, the store's response for the single call the handler makes.  The
response for a successful `update ... .select().single()` call is the stored
row with the requested fields applied, which we make explicit via
`applyUpdateFields` / `applyToggleFields` hypotheses in the theorems.
-/

/-- JS `String.prototype.trim`: strip whitespace from both ends. -/
def trimString (s : String) : String :=
  ⟨((s.data.dropWhile Char.isWhitespace).reverse.dropWhile Char.isWhitespace).reverse⟩

/-- The `Todo` interface of `TodoList.tsx`. -/
structure Todo where
  id : String
  title : String
  description : Option String
  completed : Bool
  created_at : String
  updated_at : String
deriving DecidableEq, Repr

/-- The `useState` hooks of the `TodoList` component, gathered into one state
record: `todos`, `title`, `description`, `editingId`, `editTitle`,
`editDescription`, `loading`. -/
structure TodoState where
  todos : List Todo
  title : String
  description : String
  editingId : Option String
  editTitle : String
  editDescription : String
  loading : Bool
deriving DecidableEq, Repr

/-- An error object from the store, carrying a message. -/
structure StoreErr where
  message : String
deriving DecidableEq, Repr

/-- JS `description.trim() || null`: the empty string is falsy, so a
whitespace-only description becomes `null`. -/
def descriptionOrNull (d : String) : Option String :=
  if trimString d = "" then none else some (trimString d)

/-- The field object passed to `insert` in `handleCreate`. -/
structure InsertFields where
  title : String
  description : Option String
  user_id : String
  completed : Bool
deriving DecidableEq, Repr

/-- The field object passed to `update` in `handleUpdate`. -/
structure UpdateFields where
  title : String
  description : Option String
  updated_at : String
deriving DecidableEq, Repr

/-- The field object passed to `update` in `handleToggleComplete`. -/
structure ToggleFields where
  completed : Bool
  updated_at : String
deriving DecidableEq, Repr

/-- Record Store semantics of `update(fields).eq('id', id).select().single()`
on a stored row: the listed fields are overwritten, everything else kept. -/
def applyUpdateFields (r : Todo) (f : UpdateFields) : Todo :=
  { r with title := f.title, description := f.description, updated_at := f.updated_at }

/-- Record Store semantics of the toggle update on a stored row. -/
def applyToggleFields (r : Todo) (f : ToggleFields) : Todo :=
  { r with completed := f.completed, updated_at := f.updated_at }

/-- Result of `handleCreate`: the new component state, the insert request sent
to the store (`none` when the guard returned before any call), and whether
`alert` / `console.error` fired. -/
structure CreateResult where
  state : TodoState
  request : Option InsertFields
  alerted : Bool
  logged : Bool
deriving DecidableEq, Repr

/-- `handleCreate` of `TodoList.tsx`.  Guard: `if (!title.trim()) return`.
Otherwise insert is called; on error the handler logs, alerts and returns;
on success the returned row `d` is prepended (`setTodos([data, ...todos])`)
and the two form fields are cleared. -/
def handleCreate (userId : String) (s : TodoState) (resp : Except StoreErr Todo) :
    CreateResult :=
  if trimString s.title = "" then
    { state := s, request := none, alerted := false, logged := false }
  else
    let req : InsertFields :=
      { title := trimString s.title
        description := descriptionOrNull s.description
        user_id := userId
        completed := false }
    match resp with
    | .error _ =>
      { state := { s with loading := false }, request := some req
        alerted := true, logged := true }
    | .ok d =>
      { state := { s with todos := d :: s.todos, title := "", description := ""
                          loading := false }
        request := some req, alerted := false, logged := false }

/-- The field object `handleUpdate` sends to the store. -/
def updateRequest (s : TodoState) (now : String) : UpdateFields :=
  { title := trimString s.editTitle
    description := descriptionOrNull s.editDescription
    updated_at := now }

/-- Result of `handleUpdate`: new state, the update request sent to the
store (`none` when the guard returned before any call), and whether
`alert` / `console.error` fired. -/
structure UpdateResult where
  state : TodoState
  request : Option UpdateFields
  alerted : Bool
  logged : Bool
deriving DecidableEq, Repr

/-- `handleUpdate` of `TodoList.tsx`.  Guard: `if (!editTitle.trim()) return`.
Otherwise the update request (`updateRequest`) is sent; on error the handler
logs, alerts and returns; on success the returned row `d` replaces every
entry whose id matches (`todos.map(todo => todo.id === id ? data : todo)`)
and the edit state is cleared. -/
def handleUpdate (now : String) (s : TodoState) (id : String)
    (resp : Except StoreErr Todo) : UpdateResult :=
  if trimString s.editTitle = "" then
    { state := s, request := none, alerted := false, logged := false }
  else
    match resp with
    | .error _ =>
      { state := { s with loading := false }, request := some (updateRequest s now)
        alerted := true, logged := true }
    | .ok d =>
      { state := { s with
          todos := s.todos.map (fun todo => if todo.id = id then d else todo)
          editingId := none, editTitle := "", editDescription := ""
          loading := false }
        request := some (updateRequest s now), alerted := false, logged := false }

/-- Result of `handleDelete` or `handleToggleComplete`: new state plus
whether the store was called, an alert shown, an error logged. -/
structure MutResult where
  state : TodoState
  storeCalled : Bool
  alerted : Bool
  logged : Bool
deriving DecidableEq, Repr

/-- `handleDelete` of `TodoList.tsx`.  Guard: the `confirm(...)` dialog; when
declined the handler returns before any call.  On error it logs and alerts;
on success it filters the id out (`todos.filter(todo => todo.id !== id)`). -/
def handleDelete (s : TodoState) (id : String) (confirmed : Bool)
    (resp : Except StoreErr Unit) : MutResult :=
  if confirmed = false then
    { state := s, storeCalled := false, alerted := false, logged := false }
  else
    match resp with
    | .error _ =>
      { state := { s with loading := false }, storeCalled := true
        alerted := true, logged := true }
    | .ok _ =>
      { state := { s with
          todos := s.todos.filter (fun todo => todo.id ≠ id)
          loading := false }
        storeCalled := true, alerted := false, logged := false }

/-- The field object `handleToggleComplete` sends to the store, given the
`completed` argument from the call site. -/
def toggleRequest (completed : Bool) (now : String) : ToggleFields :=
  { completed := !completed, updated_at := now }

/-- Result of `handleToggleComplete`: new state, the request it sent (it
always sends one — there is no guard), and whether `alert` /
`console.error` fired. -/
structure ToggleResult where
  state : TodoState
  request : ToggleFields
  alerted : Bool
  logged : Bool
deriving DecidableEq, Repr

/-- `handleToggleComplete` of `TodoList.tsx`.  No guard.  Sends
`{ completed: !completed, updated_at: now }`; on error it only logs
(`console.error`, no `alert`) and returns; on success the returned row
replaces the matching entry in place. -/
def handleToggleComplete (now : String) (s : TodoState) (id : String)
    (completed : Bool) (resp : Except StoreErr Todo) : ToggleResult :=
  match resp with
  | .error _ =>
    { state := { s with loading := false }, request := toggleRequest completed now
      alerted := false, logged := true }
  | .ok d =>
    { state := { s with
        todos := s.todos.map (fun todo => if todo.id = id then d else todo)
        loading := false }
      request := toggleRequest completed now, alerted := false, logged := false }

/-- The render of `TodoList.tsx` shows the Save button that invokes
`handleUpdate(todo.id)` only inside the `editingId === todo.id` branch, and
the button is `disabled={loading}`: an update invocation can only happen
with that edit target active and the busy flag clear. -/
def updateInvocable (s : TodoState) (id : String) : Prop :=
  s.editingId = some id ∧ s.loading = false

/-- The authenticated user as the component sees it. -/
structure UserT where
  id : String
  email : String
deriving DecidableEq, Repr

/-- What `DashboardPage` returns: either the framework redirect or the
rendered page shell carrying the `TodoList` props (`initialTodos`, `user`). -/
inductive DashboardResponse where
  | redirect (path : String)
  | page (initialTodos : List Todo) (user : UserT)
deriving DecidableEq, Repr

/-- Result of the dashboard loader: the response plus whether the Record
Store select was issued and whether `console.error` fired. -/
structure DashboardResult where
  response : DashboardResponse
  storeQueried : Bool
  logged : Bool
deriving DecidableEq, Repr

/-- `DashboardPage` of `src/app/dashboard/page.tsx`: `getUser`; if no user,
`redirect('/login')` (terminal, no query).  Otherwise the select for the
user's todos runs; on error it is logged and `todos || []` degrades to the
empty list; the page renders `TodoList` with those todos and the user. -/
def DashboardPage (user : Option UserT) (query : Except StoreErr (List Todo)) :
    DashboardResult :=
  match user with
  | none =>
    { response := .redirect "/login", storeQueried := false, logged := false }
  | some u =>
    match query with
    | .error _ =>
      { response := .page [] u, storeQueried := true, logged := true }
    | .ok todos =>
      { response := .page todos u, storeQueried := true, logged := false }

/-- `URLSearchParams.get`: the value of the first pair with the given key,
or null. -/
def searchParamsGet (params : List (String × String)) (key : String) :
    Option String :=
  (params.find? (fun p => p.1 = key)).map (fun p => p.2)

/-- Result of the auth callback: the redirect target and whether
`exchangeCodeForSession` was attempted. -/
structure CallbackResult where
  location : String
  exchangeAttempted : Bool
deriving DecidableEq, Repr

/-- JS truthiness of a `string | null` value, as tested by `if (code)`:
false for null and for the empty string. -/
def truthyString : Option String → Bool
  | none => false
  | some v => v != ""

/-- `GET` of `src/app/auth/callback/route.ts`: read `code` and `type` from
the query string; `if (code)` — i.e. when the code is truthy, null and the
empty string being falsy — attempt the session exchange (its outcome
`exchangeOk` is never inspected); redirect to `origin + "/reset-password"`
when `type === 'recovery'`, else to `origin + "/dashboard"`. -/
def callbackGET (origin : String) (params : List (String × String))
    (exchangeOk : Bool) : CallbackResult :=
  let code := searchParamsGet params "code"
  let ty := searchParamsGet params "type"
  let _ := exchangeOk
  if ty = some "recovery" then
    { location := origin ++ "/reset-password"
      exchangeAttempted := truthyString code }
  else
    { location := origin ++ "/dashboard"
      exchangeAttempted := truthyString code }

/-! ### Helper lemmas about the list reconciliation primitives -/

/-- Mapping the replace-by-id function over a list in which no element has
the id leaves the list unchanged. -/
theorem map_replace_of_not_mem (l : List Todo) (id : String) (d : Todo)
    (h : ∀ t ∈ l, t.id ≠ id) :
    l.map (fun t => if t.id = id then d else t) = l := by
  induction l with
  | nil => rfl
  | cons x xs ih =>
    rw [List.map_cons, if_neg (h x (List.mem_cons_self x xs)),
      ih (fun t ht => h t (List.mem_cons_of_mem x ht))]

/-- Filtering out an id that occurs in no element leaves the list
unchanged. -/
theorem filter_ne_of_not_mem (l : List Todo) (id : String)
    (h : ∀ t ∈ l, t.id ≠ id) :
    l.filter (fun t => t.id ≠ id) = l := by
  induction l with
  | nil => rfl
  | cons x xs ih =>
    rw [List.filter_cons]
    simp only [decide_eq_true (h x (List.mem_cons_self x xs)), if_true]
    rw [ih (fun t ht => h t (List.mem_cons_of_mem x ht))]

/-- Replace-by-id on a list split around the unique element with the id:
exactly that element becomes `d`. -/
theorem map_replace_append (l1 l2 : List Todo) (r d : Todo) (id : String)
    (hr : r.id = id) (h1 : ∀ t ∈ l1, t.id ≠ id) (h2 : ∀ t ∈ l2, t.id ≠ id) :
    (l1 ++ r :: l2).map (fun t => if t.id = id then d else t) = l1 ++ d :: l2 := by
  rw [List.map_append, List.map_cons, if_pos hr,
    map_replace_of_not_mem l1 id d h1, map_replace_of_not_mem l2 id d h2]

/-- Filter-out-by-id on a list split around the unique element with the id:
exactly that element is removed. -/
theorem filter_remove_append (l1 l2 : List Todo) (r : Todo) (id : String)
    (hr : r.id = id) (h1 : ∀ t ∈ l1, t.id ≠ id) (h2 : ∀ t ∈ l2, t.id ≠ id) :
    (l1 ++ r :: l2).filter (fun t => t.id ≠ id) = l1 ++ l2 := by
  have hrf : (decide (r.id ≠ id)) = false := by simp [hr]
  rw [List.filter_append, List.filter_cons]
  simp only [hrf, Bool.false_eq_true, if_false]
  rw [filter_ne_of_not_mem l1 id h1, filter_ne_of_not_mem l2 id h2]

/-! ### Concrete sample data for the witnesses -/

def sampleTodo : Todo :=
  { id := "1", title := "A", description := none, completed := false
    created_at := "2024-01-01", updated_at := "2024-01-01" }

def sampleTodo2 : Todo :=
  { id := "2", title := "C", description := some "d", completed := true
    created_at := "2024-01-02", updated_at := "2024-01-02" }

def sampleState : TodoState :=
  { todos := [sampleTodo, sampleTodo2], title := "New todo", description := " "
    editingId := some "1", editTitle := "B", editDescription := ""
    loading := false }

def emptyTitleState : TodoState :=
  { sampleState with title := "   " }

/-! ### Claim theorems -/

/-- C1: for every create invocation with a non-empty trimmed title where the
store insert succeeds, exactly the server-returned record `d` is added
(prepended) to the local sequence, every previously present record is
retained in its existing order, the insert call was issued, and the title
and description fields are cleared. -/
theorem create_ok_prepends_and_clears (userId : String) (s : TodoState)
    (d : Todo) (htrim : trimString s.title ≠ "") :
    (handleCreate userId s (Except.ok d)).state.todos = d :: s.todos ∧
    (handleCreate userId s (Except.ok d)).request.isSome = true ∧
    (handleCreate userId s (Except.ok d)).state.title = "" ∧
    (handleCreate userId s (Except.ok d)).state.description = "" := by
  simp [handleCreate, htrim]

theorem create_ok_prepends_and_clears_witness :
    (handleCreate "u1" sampleState (Except.ok sampleTodo)).state.todos
      = sampleTodo :: sampleState.todos ∧
    (handleCreate "u1" sampleState (Except.ok sampleTodo)).request.isSome = true ∧
    (handleCreate "u1" sampleState (Except.ok sampleTodo)).state.title = "" ∧
    (handleCreate "u1" sampleState (Except.ok sampleTodo)).state.description = "" :=
  create_ok_prepends_and_clears "u1" sampleState sampleTodo (by decide)

/-- C5: a create invocation whose title trims to the empty string makes no
store call (no request) and changes no component state at all: the result
is the untouched state with no alert and no log, whatever the store
response parameter would have been. -/
theorem create_empty_title_noop (userId : String) (s : TodoState)
    (resp : Except StoreErr Todo) (htrim : trimString s.title = "") :
    handleCreate userId s resp =
      { state := s, request := none, alerted := false, logged := false } := by
  simp [handleCreate, htrim]

theorem create_empty_title_noop_witness :
    handleCreate "u1" emptyTitleState (Except.error { message := "boom" }) =
      { state := emptyTitleState, request := none, alerted := false
        logged := false } :=
  create_empty_title_noop "u1" emptyTitleState
    (Except.error { message := "boom" }) (by decide)

/-- C7: a dashboard request with no current user responds with a redirect to
the login path and issues no Record Store query, whatever the query would
have returned. -/
theorem dashboard_unauthenticated_redirect (query : Except StoreErr (List Todo)) :
    DashboardPage none query =
      { response := .redirect "/login", storeQueried := false, logged := false } :=
  rfl

/-- C8: an authenticated dashboard request whose Record Store select fails
logs the error and still renders the page with an empty initial list — the
response is a rendered page, not a redirect or error. -/
theorem dashboard_fetch_error_degrades (u : UserT) (e : StoreErr) :
    DashboardPage (some u) (Except.error e) =
      { response := .page [] u, storeQueried := true, logged := true } :=
  rfl

/-- A code value passes the `if (code)` truthiness test exactly when it is
present and non-empty. -/
theorem truthyString_eq_true_iff (o : Option String) :
    truthyString o = true ↔ o.isSome = true ∧ o ≠ some "" := by
  cases o with
  | none => simp [truthyString]
  | some v => simp [truthyString]

/-- C9 counterexample: at a request with query `?code=` the `code` parameter
is present (`searchParamsGet` returns it), yet no exchange is attempted —
JS `if (code)` is false on the empty string.  The claim's "the
code-for-session exchange is attempted exactly when a code parameter is
present" is false of the program at this input. -/
theorem callback_empty_code_counterexample :
    (searchParamsGet [("code", "")] "code").isSome = true ∧
    (callbackGET "http://x" [("code", "")] true).exchangeAttempted = false := by
  decide

/-- C9 (amended): the callback redirects to `origin + "/reset-password"`
exactly when the `type` query parameter equals `"recovery"`, and to
`origin + "/dashboard"` otherwise; the code-for-session exchange is
attempted exactly when a `code` parameter is present with a non-empty
value (JS truthiness of `if (code)`); and the whole result is independent
of the exchange outcome. -/
theorem callback_redirect_choice (origin : String)
    (params : List (String × String)) (exOk exOk2 : Bool) :
    ((callbackGET origin params exOk).location =
      if searchParamsGet params "type" = some "recovery" then
        origin ++ "/reset-password"
      else origin ++ "/dashboard") ∧
    ((callbackGET origin params exOk).exchangeAttempted = true ↔
      (searchParamsGet params "code").isSome = true ∧
        searchParamsGet params "code" ≠ some "") ∧
    callbackGET origin params exOk = callbackGET origin params exOk2 := by
  unfold callbackGET
  by_cases h : searchParamsGet params "type" = some "recovery" <;>
    simp [h, truthyString_eq_true_iff]

theorem callback_redirect_choice_witness :
    (callbackGET "http://x" [("type", "recovery"), ("code", "abc")]
      true).location = "http://x/reset-password" ∧
    (callbackGET "http://x" [("type", "recovery"), ("code", "abc")]
      true).exchangeAttempted = true :=
  ⟨by
    rw [(callback_redirect_choice "http://x"
      [("type", "recovery"), ("code", "abc")] true true).1]
    decide,
   (callback_redirect_choice "http://x"
      [("type", "recovery"), ("code", "abc")] true true).2.1.mpr (by decide)⟩

/-- C2: for a successful update of the record `r` with the target id present
in the local sequence (ids unique around it), only that entry changes — it
takes the server-returned row, whose title, description and updated_at are
the requested values and whose id, completed and created_at are `r`'s own —
every other record and the order are untouched, and the edit state is
cleared; on failure the sequence and the edit state are unchanged and an
alert is raised. -/
theorem update_ok_frame (now : String) (s : TodoState) (id : String)
    (l1 l2 : List Todo) (r : Todo) (e : StoreErr)
    (hsplit : s.todos = l1 ++ r :: l2) (hr : r.id = id)
    (h1 : ∀ t ∈ l1, t.id ≠ id) (h2 : ∀ t ∈ l2, t.id ≠ id)
    (htrim : trimString s.editTitle ≠ "") :
    ((handleUpdate now s id
        (Except.ok (applyUpdateFields r (updateRequest s now)))).state.todos
       = l1 ++ applyUpdateFields r (updateRequest s now) :: l2 ∧
     (applyUpdateFields r (updateRequest s now)).id = r.id ∧
     (applyUpdateFields r (updateRequest s now)).completed = r.completed ∧
     (applyUpdateFields r (updateRequest s now)).created_at = r.created_at ∧
     (applyUpdateFields r (updateRequest s now)).title = trimString s.editTitle ∧
     (applyUpdateFields r (updateRequest s now)).description
       = descriptionOrNull s.editDescription ∧
     (applyUpdateFields r (updateRequest s now)).updated_at = now ∧
     (handleUpdate now s id
        (Except.ok (applyUpdateFields r (updateRequest s now)))).state.editingId
       = none ∧
     (handleUpdate now s id
        (Except.ok (applyUpdateFields r (updateRequest s now)))).state.editTitle
       = "" ∧
     (handleUpdate now s id
        (Except.ok (applyUpdateFields r (updateRequest s now)))).state.editDescription
       = "") ∧
    ((handleUpdate now s id (Except.error e)).state.todos = s.todos ∧
     (handleUpdate now s id (Except.error e)).state.editingId = s.editingId ∧
     (handleUpdate now s id (Except.error e)).state.editTitle = s.editTitle ∧
     (handleUpdate now s id (Except.error e)).state.editDescription
       = s.editDescription ∧
     (handleUpdate now s id (Except.error e)).alerted = true) := by
  have hok : handleUpdate now s id
      (Except.ok (applyUpdateFields r (updateRequest s now)))
      = { state := { s with
            todos := s.todos.map (fun todo =>
              if todo.id = id then applyUpdateFields r (updateRequest s now)
              else todo)
            editingId := none, editTitle := "", editDescription := ""
            loading := false }
          request := some (updateRequest s now), alerted := false
          logged := false } := by
    unfold handleUpdate
    rw [if_neg htrim]
  have herr : handleUpdate now s id (Except.error e)
      = { state := { s with loading := false }
          request := some (updateRequest s now), alerted := true
          logged := true } := by
    unfold handleUpdate
    rw [if_neg htrim]
  refine ⟨⟨?_, rfl, rfl, rfl, rfl, rfl, rfl, ?_, ?_, ?_⟩, ?_, ?_, ?_, ?_, ?_⟩
  · rw [hok]
    show s.todos.map (fun todo =>
        if todo.id = id then applyUpdateFields r (updateRequest s now) else todo)
      = l1 ++ applyUpdateFields r (updateRequest s now) :: l2
    rw [hsplit]
    exact map_replace_append l1 l2 r _ id hr h1 h2
  · rw [hok]
  · rw [hok]
  · rw [hok]
  · rw [herr]
  · rw [herr]
  · rw [herr]
  · rw [herr]
  · rw [herr]

theorem update_ok_frame_witness :
    (handleUpdate "t1" sampleState "1"
        (Except.ok (applyUpdateFields sampleTodo
          (updateRequest sampleState "t1")))).state.todos
      = [applyUpdateFields sampleTodo (updateRequest sampleState "t1"),
         sampleTodo2] ∧
    (handleUpdate "t1" sampleState "1"
        (Except.error { message := "boom" })).state.editingId
      = sampleState.editingId :=
  ⟨(update_ok_frame "t1" sampleState "1" [] [sampleTodo2] sampleTodo
      { message := "boom" } rfl rfl (by decide) (by decide) (by decide)).1.1,
   (update_ok_frame "t1" sampleState "1" [] [sampleTodo2] sampleTodo
      { message := "boom" } rfl rfl (by decide) (by decide) (by decide)).2.2.1⟩

/-- C3: toggling the record `r` present in the local sequence (ids unique
around it) with the call-site arguments `r.id`, `r.completed`: on success
exactly that entry's completed field is flipped and its updated_at becomes
`now`, every other record unchanged; on failure the sequence is identical
to before, no alert is raised, and the error is only logged. -/
theorem toggle_flip_and_silent_failure (now : String) (s : TodoState)
    (l1 l2 : List Todo) (r : Todo) (e : StoreErr)
    (hsplit : s.todos = l1 ++ r :: l2)
    (h1 : ∀ t ∈ l1, t.id ≠ r.id) (h2 : ∀ t ∈ l2, t.id ≠ r.id) :
    ((handleToggleComplete now s r.id r.completed
        (Except.ok (applyToggleFields r
          (toggleRequest r.completed now)))).state.todos
      = l1 ++ { r with completed := !r.completed, updated_at := now } :: l2) ∧
    (handleToggleComplete now s r.id r.completed
      (Except.error e)).state.todos = s.todos ∧
    (handleToggleComplete now s r.id r.completed (Except.error e)).alerted
      = false ∧
    (handleToggleComplete now s r.id r.completed (Except.error e)).logged
      = true := by
  refine ⟨?_, rfl, rfl, rfl⟩
  show s.todos.map (fun todo =>
      if todo.id = r.id then applyToggleFields r (toggleRequest r.completed now)
      else todo)
    = l1 ++ { r with completed := !r.completed, updated_at := now } :: l2
  rw [hsplit]
  exact map_replace_append l1 l2 r _ r.id rfl h1 h2

theorem toggle_flip_and_silent_failure_witness :
    (handleToggleComplete "t1" sampleState sampleTodo.id sampleTodo.completed
        (Except.ok (applyToggleFields sampleTodo
          (toggleRequest sampleTodo.completed "t1")))).state.todos
      = [{ sampleTodo with completed := !sampleTodo.completed, updated_at := "t1" },
         sampleTodo2] ∧
    (handleToggleComplete "t1" sampleState sampleTodo.id sampleTodo.completed
        (Except.error { message := "boom" })).alerted = false :=
  ⟨(toggle_flip_and_silent_failure "t1" sampleState [] [sampleTodo2] sampleTodo
      { message := "boom" } rfl (by decide) (by decide)).1,
   (toggle_flip_and_silent_failure "t1" sampleState [] [sampleTodo2] sampleTodo
      { message := "boom" } rfl (by decide) (by decide)).2.2.1⟩

/-- C4: a delete invocation with confirmation declined issues no store call
and changes nothing; with confirmation granted and the target id present
(ids unique around it), success removes exactly that record, keeping all
others in order; failure alerts and leaves the sequence unchanged. -/
theorem delete_confirm_and_frame (s : TodoState) (id : String)
    (l1 l2 : List Todo) (r : Todo) (e : StoreErr) (resp : Except StoreErr Unit)
    (hsplit : s.todos = l1 ++ r :: l2) (hr : r.id = id)
    (h1 : ∀ t ∈ l1, t.id ≠ id) (h2 : ∀ t ∈ l2, t.id ≠ id) :
    handleDelete s id false resp =
      { state := s, storeCalled := false, alerted := false, logged := false } ∧
    (handleDelete s id true (Except.ok ())).state.todos = l1 ++ l2 ∧
    (handleDelete s id true (Except.error e)).state.todos = s.todos ∧
    (handleDelete s id true (Except.error e)).alerted = true := by
  refine ⟨rfl, ?_, rfl, rfl⟩
  show s.todos.filter (fun todo => todo.id ≠ id) = l1 ++ l2
  rw [hsplit]
  exact filter_remove_append l1 l2 r id hr h1 h2

theorem delete_confirm_and_frame_witness :
    handleDelete sampleState "1" false (Except.ok ()) =
      { state := sampleState, storeCalled := false, alerted := false
        logged := false } ∧
    (handleDelete sampleState "1" true (Except.ok ())).state.todos
      = [sampleTodo2] :=
  ⟨(delete_confirm_and_frame sampleState "1" [] [sampleTodo2] sampleTodo
      { message := "boom" } (Except.ok ()) rfl rfl (by decide) (by decide)).1,
   (delete_confirm_and_frame sampleState "1" [] [sampleTodo2] sampleTodo
      { message := "boom" } (Except.ok ()) rfl rfl (by decide) (by decide)).2.1⟩

/-- C6: under the render-level invocation condition (`updateInvocable`: the
Save button for this id exists only when it is the active edit target), a
store call is issued only when the edit target is active and the trimmed
edit title is non-empty; and whenever the trimmed edit title is empty the
handler makes no store call and changes no state. -/
theorem update_guard (now : String) (s : TodoState) (id : String)
    (resp : Except StoreErr Todo) (hinv : updateInvocable s id) :
    ((handleUpdate now s id resp).request.isSome = true →
      s.editingId = some id ∧ trimString s.editTitle ≠ "") ∧
    (trimString s.editTitle = "" →
      handleUpdate now s id resp =
        { state := s, request := none, alerted := false, logged := false }) := by
  constructor
  · intro hcall
    refine ⟨hinv.1, fun htrim => ?_⟩
    simp [handleUpdate, htrim] at hcall
  · intro htrim
    simp [handleUpdate, htrim]

theorem update_guard_witness :
    trimString sampleState.editTitle ≠ "" ∧ sampleState.editingId = some "1" :=
  ⟨((update_guard "t1" sampleState "1" (Except.error { message := "x" })
      ⟨rfl, rfl⟩).1 (by decide)).2,
   ((update_guard "t1" sampleState "1" (Except.error { message := "x" })
      ⟨rfl, rfl⟩).1 (by decide)).1⟩

/-- C10: when no record in the local sequence carries the given id, a
successful update, a successful toggle, and a confirmed successful delete
for that id all leave the local sequence entirely unchanged — the
server-returned record is neither inserted nor appended. -/
theorem absent_id_noop (now : String) (s : TodoState) (id : String)
    (d d2 : Todo) (c : Bool)
    (habs : ∀ t ∈ s.todos, t.id ≠ id) :
    (handleUpdate now s id (Except.ok d)).state.todos = s.todos ∧
    (handleToggleComplete now s id c (Except.ok d2)).state.todos = s.todos ∧
    (handleDelete s id true (Except.ok ())).state.todos = s.todos := by
  refine ⟨?_, ?_, ?_⟩
  · by_cases htrim : trimString s.editTitle = ""
    · simp [handleUpdate, htrim]
    · unfold handleUpdate
      rw [if_neg htrim]
      exact map_replace_of_not_mem s.todos id d habs
  · show s.todos.map (fun todo => if todo.id = id then d2 else todo) = s.todos
    exact map_replace_of_not_mem s.todos id d2 habs
  · show s.todos.filter (fun todo => todo.id ≠ id) = s.todos
    exact filter_ne_of_not_mem s.todos id habs

theorem absent_id_noop_witness :
    (handleUpdate "t1" sampleState "99" (Except.ok sampleTodo)).state.todos
      = sampleState.todos ∧
    (handleToggleComplete "t1" sampleState "99" false
        (Except.ok sampleTodo)).state.todos = sampleState.todos ∧
    (handleDelete sampleState "99" true (Except.ok ())).state.todos
      = sampleState.todos :=
  absent_id_noop "t1" sampleState "99" sampleTodo sampleTodo false (by decide)
